/-
Verification of the TPU provisioner's pod creation reconciler
(tpu-provisioner/internal/controller/creation_controller.go).

The reconciler is embedded as a pure function producing, besides the
controller result and error, a trace of the side-effecting operations it
performs (store reads/writes, event emissions, provider calls).  The
capacity provider is passed in as a possibly stateful function, mirroring
the injected `cloud.Provider` interface.
-/
import Mathlib

namespace TPUProvisioner

/-- Pod phase (`corev1.PodPhase`); only `pending` is actionable. -/
inductive PodPhase
  | pending
  | running
  | succeeded
  | failed
  | unknown
deriving DecidableEq, Repr

/-- A pod status condition: type, status and reason strings. -/
structure PodCondition where
  condType : String
  status : String
  reason : String
deriving DecidableEq, Repr

/-- A container: only its resource-requests map is relevant here. -/
structure Container where
  requests : List (String × Int)
deriving DecidableEq, Repr

/-- The pod snapshot, restricted to the attributes the reconciler reads. -/
structure Pod where
  ns : String
  name : String
  phase : PodPhase
  conditions : List PodCondition
  containers : List Container
  nodeSelector : List (String × String)
deriving DecidableEq, Repr

/-- Modelled from the spec: `cloud.GKETPUNodeSelector`, the fixed,
non-configurable node-selector key identifying the specialized hardware
family this provisioner targets.  Its definition lives in the cloud
package, outside the file under study. -/
def GKETPUNodeSelector : String := "cloud.google.com/gke-tpu-topology"

/-- Modelled from the spec: `isPending(pod)` — phase == Pending. -/
def isPending (pod : Pod) : Bool :=
  pod.phase = PodPhase.pending

/-- Modelled from the spec: `isUnschedulable(pod)` — the scheduling
condition reports failure to place the pod (status False with reason
indicating no node satisfies its constraints). -/
def isUnschedulable (pod : Pod) : Bool :=
  pod.conditions.any fun c =>
    c.condType = "PodScheduled" && c.status = "False" && c.reason = "Unschedulable"

/-- Modelled from the spec: `doesRequestResource(pod, resourceType)` — at
least one container's resource-requests map contains a positive quantity
for `resourceType`. -/
def doesRequestResource (pod : Pod) (resourceType : String) : Bool :=
  pod.containers.any fun c =>
    c.requests.any fun kv => kv.1 = resourceType && 0 < kv.2

/-- Modelled from the spec: `hasNodeSelectors(pod, key)` — the pod's node
selector constraints contain the given key. -/
def hasNodeSelectors (pod : Pod) (key : String) : Bool :=
  pod.nodeSelector.any fun kv => kv.1 = key

/-- `PodCriteria` from the controller: the configured resource type. -/
structure PodCriteria where
  resourceType : String
deriving DecidableEq, Repr

/-- Modelled from the spec: event reason constants (declared elsewhere in
the controller package). -/
def EventEnsuringNodePool : String := "EnsuringNodePool"

/-- Modelled from the spec: event reason for a successfully ensured pool. -/
def EventNodePoolEnsured : String := "NodePoolEnsured"

/-- Modelled from the spec: event reason for a failed ensure attempt. -/
def EventFailedEnsuringNodePool : String := "FailedEnsuringNodePool"

/-- An emitted event: `corev1` event type ("Normal"/"Warning"), reason,
and message. -/
structure Event where
  etype : String
  reason : String
  message : String
deriving DecidableEq, Repr

/-- Outcome of the store `Get`: the pod, a not-found signal, or another
error carrying its message. -/
inductive GetResult
  | found (pod : Pod)
  | notFound
  | otherError (msg : String)
deriving DecidableEq, Repr

/-- Outcome of `Provider.EnsureNodePoolForPod`: nil error, an error
matching `cloud.ErrDuplicateRequest`, or any other error with message. -/
inductive ProviderResult
  | success
  | duplicateRequest
  | otherError (msg : String)
deriving DecidableEq, Repr

/-- `ctrl.Result`: requeue flag and requeue-after delay (nanoseconds). -/
structure CtrlResult where
  requeue : Bool
  requeueAfter : Nat
deriving DecidableEq, Repr

/-- The zero `ctrl.Result{}` value returned on every path of the code. -/
def CtrlResult.zero : CtrlResult := ⟨false, 0⟩

/-- One side-effecting operation performed during a reconciliation.
Store writes (update/patch/delete/create on the client) get their own
constructor so that their absence from every trace is a provable frame
property, not an artifact of the action vocabulary. -/
inductive Action
  | storeGet (key : String × String)
  | storeWrite (key : String × String)
  | emit (e : Event)
  | providerCall (key : String × String)
deriving DecidableEq, Repr

/-- Is this action an operation against the store at all? -/
def Action.isStoreOp : Action → Bool
  | .storeGet _ => true
  | .storeWrite _ => true
  | _ => false

/-- Is this action a store mutation? -/
def Action.isStoreWrite : Action → Bool
  | .storeWrite _ => true
  | _ => false

/-- Is this action a provider invocation? -/
def Action.isProviderCall : Action → Bool
  | .providerCall _ => true
  | _ => false

/-- Is this action an event emission? -/
def Action.isEmit : Action → Bool
  | .emit _ => true
  | _ => false

/-- The observable outcome of one `Reconcile` invocation: returned
result, returned error (as its message), and the trace of side effects
in execution order. -/
structure ReconcileOutput where
  res : CtrlResult
  err : Option String
  trace : List Action
deriving DecidableEq, Repr

/-- Events emitted during the reconciliation, in order. -/
def ReconcileOutput.events (o : ReconcileOutput) : List Event :=
  o.trace.filterMap fun a => match a with
    | .emit e => some e
    | _ => none

/-- Number of provider invocations during the reconciliation. -/
def ReconcileOutput.providerCalls (o : ReconcileOutput) : Nat :=
  o.trace.countP fun a => a.isProviderCall

/-- Warning-severity events emitted during the reconciliation. -/
def ReconcileOutput.warnings (o : ReconcileOutput) : List Event :=
  o.events.filter fun e => e.etype = "Warning"

/-- The message of the "Ensuring Node Pool" event
(`Eventf` format string instantiated). -/
def ensuringMsg (pod : Pod) : String :=
  "Ensuring Node Pool, triggered by Pod " ++ pod.ns ++ "/" ++ pod.name ++ "."

/-- The informational event emitted before the provider call. -/
def ensuringEvent (pod : Pod) : Event :=
  ⟨"Normal", EventEnsuringNodePool, ensuringMsg pod⟩

/-- The event emitted after a successful provider call. -/
def ensuredEvent : Event :=
  ⟨"Normal", EventNodePoolEnsured, "Node Pool Ensured."⟩

/-- The warning event emitted when the provider fails with a
non-duplicate error whose message is `msg`. -/
def failedEvent (msg : String) : Event :=
  ⟨"Warning", EventFailedEnsuringNodePool,
    "Failed to ensure existance of Node Pool: " ++ msg⟩

/-- `CreationReconciler.Reconcile`, embedded.  `req` is the request's
namespaced name, `fetch` the store's answer for that key, `provider` the
injected `EnsureNodePoolForPod` with its private state of type `σ`.
Follows the Go control flow line by line. -/
def Reconcile {σ : Type} (r : PodCriteria) (req : String × String)
    (fetch : GetResult) (provider : Pod → σ → ProviderResult × σ)
    (s : σ) : ReconcileOutput × σ :=
  match fetch with
  | .notFound =>
      -- Don't requeue, Pod no longer exists.
      (⟨CtrlResult.zero, none, [.storeGet req]⟩, s)
  | .otherError msg =>
      (⟨CtrlResult.zero, some ("getting pod: " ++ msg), [.storeGet req]⟩, s)
  | .found pod =>
      if !isPending pod || !isUnschedulable pod
          || !doesRequestResource pod r.resourceType
          || !hasNodeSelectors pod GKETPUNodeSelector then
        -- Return early if Pod should not trigger a scale up.
        (⟨CtrlResult.zero, none, [.storeGet req]⟩, s)
      else
        let key := (pod.ns, pod.name)
        match provider pod s with
        | (.duplicateRequest, s') =>
            (⟨CtrlResult.zero, none,
              [.storeGet req, .emit (ensuringEvent pod), .providerCall key]⟩, s')
        | (.otherError msg, s') =>
            (⟨CtrlResult.zero, some msg,
              [.storeGet req, .emit (ensuringEvent pod), .providerCall key,
                .emit (failedEvent msg)]⟩, s')
        | (.success, s') =>
            (⟨CtrlResult.zero, none,
              [.storeGet req, .emit (ensuringEvent pod), .providerCall key,
                .emit ensuredEvent]⟩, s')

/-- A stateless provider returning a fixed result, for claims that only
constrain one invocation. -/
def constProvider (pr : ProviderResult) : Pod → Unit → ProviderResult × Unit :=
  fun _ _ => (pr, ())

/-- A faithful idempotent provider keyed on pod identity: its state is
the list of pod identities already provisioned; a repeated call for a
known identity fails with the duplicate-request error kind. -/
def faithfulEnsure (pod : Pod) (st : List (String × String)) :
    ProviderResult × List (String × String) :=
  if (pod.ns, pod.name) ∈ st then (.duplicateRequest, st)
  else (.success, (pod.ns, pod.name) :: st)

/-- A concrete eligible pod (spec §8, scenario 8). -/
def samplePod : Pod :=
  { ns := "default"
    name := "jax-worker-0"
    phase := .pending
    conditions := [⟨"PodScheduled", "False", "Unschedulable"⟩]
    containers := [⟨[("example.com/accelerator", 4)]⟩]
    nodeSelector := [(GKETPUNodeSelector, "v5")] }

/-- The matching criteria for `samplePod`. -/
def sampleCriteria : PodCriteria := ⟨"example.com/accelerator"⟩

/-- The same pod with phase Running (spec §8, scenario 9): ineligible. -/
def runningPod : Pod := { samplePod with phase := .running }

/-- `isEligible` from the spec §4.1: the conjunction of the four
sub-predicates, the negation of the early-return gate in the code. -/
def isEligible (pod : Pod) (resourceType : String) : Bool :=
  isPending pod && isUnschedulable pod && doesRequestResource pod resourceType
    && hasNodeSelectors pod GKETPUNodeSelector

/-- Go's `context.Canceled` error message, as surfaced by a `Get` against
a cancelled context. -/
def contextCanceledMsg : String := "context canceled"

/-- The early-return disjunction in the code is the negation of the
spec's `isEligible` conjunction. -/
lemma gate_eq_not_isEligible (pod : Pod) (rt : String) :
    (!isPending pod || !isUnschedulable pod || !doesRequestResource pod rt
      || !hasNodeSelectors pod GKETPUNodeSelector)
    = !isEligible pod rt := by
  unfold isEligible
  cases isPending pod <;> cases isUnschedulable pod <;>
    cases doesRequestResource pod rt <;>
    cases hasNodeSelectors pod GKETPUNodeSelector <;> rfl

/-- Characterization of `Reconcile` on a found pod, by eligibility. -/
lemma Reconcile_found {σ : Type} (r : PodCriteria) (req : String × String)
    (pod : Pod) (provider : Pod → σ → ProviderResult × σ) (s : σ) :
    Reconcile r req (.found pod) provider s =
      if isEligible pod r.resourceType then
        match provider pod s with
        | (.duplicateRequest, s') =>
            (⟨CtrlResult.zero, none,
              [.storeGet req, .emit (ensuringEvent pod),
                .providerCall (pod.ns, pod.name)]⟩, s')
        | (.otherError msg, s') =>
            (⟨CtrlResult.zero, some msg,
              [.storeGet req, .emit (ensuringEvent pod),
                .providerCall (pod.ns, pod.name), .emit (failedEvent msg)]⟩, s')
        | (.success, s') =>
            (⟨CtrlResult.zero, none,
              [.storeGet req, .emit (ensuringEvent pod),
                .providerCall (pod.ns, pod.name), .emit ensuredEvent]⟩, s')
      else (⟨CtrlResult.zero, none, [.storeGet req]⟩, s) := by
  simp only [Reconcile]
  rw [gate_eq_not_isEligible]
  cases h : isEligible pod r.resourceType <;> simp

/-- C1: the reconciler invokes the capacity provider only if all four
eligibility sub-predicates hold for the fetched pod; if any one of them is
false, it returns the zero result with nil error, the provider is never
invoked and no event is emitted (the trace holds only the fetch). -/
theorem C1_eligibility_gates_provider {σ : Type} (r : PodCriteria)
    (req : String × String) (pod : Pod)
    (provider : Pod → σ → ProviderResult × σ) (s : σ) :
    (0 < (Reconcile r req (.found pod) provider s).1.providerCalls →
      isPending pod = true ∧ isUnschedulable pod = true ∧
      doesRequestResource pod r.resourceType = true ∧
      hasNodeSelectors pod GKETPUNodeSelector = true) ∧
    ((isPending pod = false ∨ isUnschedulable pod = false ∨
      doesRequestResource pod r.resourceType = false ∨
      hasNodeSelectors pod GKETPUNodeSelector = false) →
      Reconcile r req (.found pod) provider s =
        (⟨CtrlResult.zero, none, [.storeGet req]⟩, s)) := by
  rw [Reconcile_found]
  cases he : isEligible pod r.resourceType with
  | false =>
      rw [if_neg (by simp : ¬(false = true))]
      refine ⟨fun hc => ?_, fun _ => rfl⟩
      simp [ReconcileOutput.providerCalls, List.countP, List.countP.go,
        Action.isProviderCall] at hc
  | true =>
      have h4 := he
      unfold isEligible at h4
      simp only [Bool.and_eq_true] at h4
      constructor
      · exact fun _ => ⟨h4.1.1.1, h4.1.1.2, h4.1.2, h4.2⟩
      · intro hbad
        rcases hbad with h | h | h | h <;>
          simp [h] at h4
  -- the eligible branch of the second conjunct is vacuous

/-- C1 witness: scenario 9 of the spec — the sample pod with phase
Running is not provisioned, and reconcile performs only the fetch. -/
theorem C1_eligibility_gates_provider_witness :
    Reconcile sampleCriteria ("default", "jax-worker-0") (.found runningPod)
      (constProvider .success) () =
      (⟨CtrlResult.zero, none, [.storeGet ("default", "jax-worker-0")]⟩, ()) :=
  (C1_eligibility_gates_provider sampleCriteria ("default", "jax-worker-0")
    runningPod (constProvider .success) ()).2 (Or.inl (by decide))

/-- C2: for an eligible pod whose provider call fails with the
duplicate-request kind, reconcile returns nil error and the zero result
and emits no warning event. -/
theorem C2_duplicate_is_success {σ : Type} (r : PodCriteria)
    (req : String × String) (pod : Pod)
    (provider : Pod → σ → ProviderResult × σ) (s : σ) (s' : σ)
    (helig : isEligible pod r.resourceType = true)
    (hdup : provider pod s = (.duplicateRequest, s')) :
    (Reconcile r req (.found pod) provider s).1.err = none ∧
    (Reconcile r req (.found pod) provider s).1.res = CtrlResult.zero ∧
    (Reconcile r req (.found pod) provider s).1.warnings = [] := by
  rw [Reconcile_found, if_pos (by simp [helig]), hdup]
  refine ⟨rfl, rfl, ?_⟩
  simp [ReconcileOutput.warnings, ReconcileOutput.events, ensuringEvent]

/-- C2 witness: the concrete eligible pod against a provider answering
duplicate-request. -/
theorem C2_duplicate_is_success_witness :
    (Reconcile sampleCriteria ("default", "jax-worker-0") (.found samplePod)
        (constProvider .duplicateRequest) ()).1.err = none ∧
    (Reconcile sampleCriteria ("default", "jax-worker-0") (.found samplePod)
        (constProvider .duplicateRequest) ()).1.res = CtrlResult.zero ∧
    (Reconcile sampleCriteria ("default", "jax-worker-0") (.found samplePod)
        (constProvider .duplicateRequest) ()).1.warnings = [] :=
  C2_duplicate_is_success sampleCriteria ("default", "jax-worker-0") samplePod
    (constProvider .duplicateRequest) () () (by decide) rfl

/-- C3: running reconcile twice in sequence for the same pod against the
faithful idempotent provider (starting with no provisioned identity)
leaves at most one provisioned identity — at most one underlying side
effect — and the second invocation returns the zero result with nil
error. -/
theorem C3_reconcile_idempotent (r : PodCriteria) (pod : Pod) :
    (Reconcile r (pod.ns, pod.name) (.found pod) faithfulEnsure
        (Reconcile r (pod.ns, pod.name) (.found pod) faithfulEnsure []).2).2.length ≤ 1 ∧
    (Reconcile r (pod.ns, pod.name) (.found pod) faithfulEnsure
        (Reconcile r (pod.ns, pod.name) (.found pod) faithfulEnsure []).2).1.res
      = CtrlResult.zero ∧
    (Reconcile r (pod.ns, pod.name) (.found pod) faithfulEnsure
        (Reconcile r (pod.ns, pod.name) (.found pod) faithfulEnsure []).2).1.err
      = none := by
  cases he : isEligible pod r.resourceType with
  | false =>
      rw [Reconcile_found, if_neg (by simp [he])]
      rw [Reconcile_found, if_neg (by simp [he])]
      exact ⟨by simp, rfl, rfl⟩
  | true =>
      have hstep1 : (Reconcile r (pod.ns, pod.name) (.found pod)
          faithfulEnsure []).2 = [(pod.ns, pod.name)] := by
        rw [Reconcile_found, if_pos he]
        simp [faithfulEnsure]
      have h2 : faithfulEnsure pod [(pod.ns, pod.name)]
          = (.duplicateRequest, [(pod.ns, pod.name)]) := by
        simp [faithfulEnsure]
      rw [hstep1, Reconcile_found, if_pos he, h2]
      exact ⟨by simp, rfl, rfl⟩

/-- C4: for an eligible pod whose provider call fails with a
non-duplicate error, reconcile emits exactly one warning event, whose
message carries the provider's error text, and returns that error
(non-nil), so the delivery mechanism requeues. -/
theorem C4_failure_propagation {σ : Type} (r : PodCriteria)
    (req : String × String) (pod : Pod)
    (provider : Pod → σ → ProviderResult × σ) (s : σ) (s' : σ) (msg : String)
    (helig : isEligible pod r.resourceType = true)
    (herr : provider pod s = (.otherError msg, s')) :
    (Reconcile r req (.found pod) provider s).1.warnings =
      [⟨"Warning", EventFailedEnsuringNodePool,
        "Failed to ensure existance of Node Pool: " ++ msg⟩] ∧
    (Reconcile r req (.found pod) provider s).1.err = some msg := by
  rw [Reconcile_found, if_pos (by simp [helig]), herr]
  refine ⟨?_, rfl⟩
  simp [ReconcileOutput.warnings, ReconcileOutput.events, ensuringEvent,
    failedEvent]

/-- C4 witness: the concrete eligible pod against a provider failing with
a quota error. -/
theorem C4_failure_propagation_witness :
    (Reconcile sampleCriteria ("default", "jax-worker-0") (.found samplePod)
        (constProvider (.otherError "quota exceeded")) ()).1.warnings =
      [⟨"Warning", EventFailedEnsuringNodePool,
        "Failed to ensure existance of Node Pool: " ++ "quota exceeded"⟩] ∧
    (Reconcile sampleCriteria ("default", "jax-worker-0") (.found samplePod)
        (constProvider (.otherError "quota exceeded")) ()).1.err
      = some "quota exceeded" :=
  C4_failure_propagation sampleCriteria ("default", "jax-worker-0") samplePod
    (constProvider (.otherError "quota exceeded")) () () "quota exceeded"
    (by decide) rfl

/-- C5: a not-found fetch yields the zero result with nil error, no event
and no provider call; any other fetch failure yields a non-nil error with
no event and no provider call. -/
theorem C5_fetch_error_handling {σ : Type} (r : PodCriteria)
    (req : String × String) (provider : Pod → σ → ProviderResult × σ)
    (s : σ) (msg : String) :
    Reconcile r req .notFound provider s =
      (⟨CtrlResult.zero, none, [.storeGet req]⟩, s) ∧
    (Reconcile r req (.otherError msg) provider s).1.err
      = some ("getting pod: " ++ msg) ∧
    (Reconcile r req (.otherError msg) provider s).1.events = [] ∧
    (Reconcile r req (.otherError msg) provider s).1.providerCalls = 0 := by
  refine ⟨rfl, rfl, rfl, rfl⟩

/-- C6: for an eligible pod whose provider call succeeds, reconcile emits
the Normal-severity "Node Pool Ensured." event and returns the zero
result with nil error. -/
theorem C6_success_notification {σ : Type} (r : PodCriteria)
    (req : String × String) (pod : Pod)
    (provider : Pod → σ → ProviderResult × σ) (s : σ) (s' : σ)
    (helig : isEligible pod r.resourceType = true)
    (hok : provider pod s = (.success, s')) :
    (Reconcile r req (.found pod) provider s).1.events =
      [ensuringEvent pod, ⟨"Normal", EventNodePoolEnsured, "Node Pool Ensured."⟩] ∧
    (Reconcile r req (.found pod) provider s).1.res = CtrlResult.zero ∧
    (Reconcile r req (.found pod) provider s).1.err = none := by
  rw [Reconcile_found, if_pos (by simp [helig]), hok]
  exact ⟨rfl, rfl, rfl⟩

/-- C6 witness: scenario 8 of the spec — the concrete eligible pod with a
succeeding provider. -/
theorem C6_success_notification_witness :
    (Reconcile sampleCriteria ("default", "jax-worker-0") (.found samplePod)
        (constProvider .success) ()).1.events =
      [ensuringEvent samplePod,
        ⟨"Normal", EventNodePoolEnsured, "Node Pool Ensured."⟩] ∧
    (Reconcile sampleCriteria ("default", "jax-worker-0") (.found samplePod)
        (constProvider .success) ()).1.res = CtrlResult.zero ∧
    (Reconcile sampleCriteria ("default", "jax-worker-0") (.found samplePod)
        (constProvider .success) ()).1.err = none :=
  C6_success_notification sampleCriteria ("default", "jax-worker-0") samplePod
    (constProvider .success) () () (by decide) rfl

/-- C7: for an eligible pod the trace starts with the fetch, then the
informational "ensuring" event, then the provider call — the notification
strictly precedes the invocation — and on every input the provider is
invoked at most once per reconciliation. -/
theorem C7_notify_before_provider {σ : Type} (r : PodCriteria)
    (req : String × String) (pod : Pod)
    (provider : Pod → σ → ProviderResult × σ) (s : σ)
    (helig : isEligible pod r.resourceType = true) :
    (∃ rest, (Reconcile r req (.found pod) provider s).1.trace =
      [.storeGet req, .emit (ensuringEvent pod),
        .providerCall (pod.ns, pod.name)] ++ rest) ∧
    (∀ fetch : GetResult,
      (Reconcile r req fetch provider s).1.providerCalls ≤ 1) := by
  constructor
  · rw [Reconcile_found, if_pos (by simp [helig])]
    rcases hpr : provider pod s with ⟨pr, s'⟩
    cases pr
    · exact ⟨[.emit ensuredEvent], rfl⟩
    · exact ⟨[], rfl⟩
    · exact ⟨[.emit (failedEvent _)], rfl⟩
  · intro fetch
    cases fetch with
    | notFound =>
        simp [Reconcile, ReconcileOutput.providerCalls, List.countP,
          List.countP.go, Action.isProviderCall]
    | otherError m =>
        simp [Reconcile, ReconcileOutput.providerCalls, List.countP,
          List.countP.go, Action.isProviderCall]
    | found p =>
        rw [Reconcile_found]
        cases hp : isEligible p r.resourceType with
        | false =>
            simp [ReconcileOutput.providerCalls, List.countP, List.countP.go,
              Action.isProviderCall]
        | true =>
            rcases hpr : provider p s with ⟨pr, s'⟩
            cases pr <;>
              simp [ReconcileOutput.providerCalls, List.countP, List.countP.go,
                Action.isProviderCall]

/-- C7 witness: the concrete eligible pod with a succeeding provider. -/
theorem C7_notify_before_provider_witness :
    (∃ rest, (Reconcile sampleCriteria ("default", "jax-worker-0")
        (.found samplePod) (constProvider .success) ()).1.trace =
      [.storeGet ("default", "jax-worker-0"), .emit (ensuringEvent samplePod),
        .providerCall (samplePod.ns, samplePod.name)] ++ rest) ∧
    (∀ fetch : GetResult,
      (Reconcile sampleCriteria ("default", "jax-worker-0") fetch
        (constProvider .success) ()).1.providerCalls ≤ 1) :=
  C7_notify_before_provider sampleCriteria ("default", "jax-worker-0")
    samplePod (constProvider .success) () (by decide)

/-- C8: when the cancellation signal has fired before the provider call,
it is observed at the fetch — the only context-consuming operation — which
returns the context-cancelled error; reconcile then performs no side
effect after that observation (no event, no provider call) and propagates
a non-nil error with the zero result, so the outcome is retryable, not a
success nor a swallowed failure. -/
theorem C8_cancellation_retryable {σ : Type} (r : PodCriteria)
    (req : String × String) (provider : Pod → σ → ProviderResult × σ)
    (s : σ) :
    (Reconcile r req (.otherError contextCanceledMsg) provider s).1.err
      = some ("getting pod: " ++ contextCanceledMsg) ∧
    (Reconcile r req (.otherError contextCanceledMsg) provider s).1.res
      = CtrlResult.zero ∧
    (Reconcile r req (.otherError contextCanceledMsg) provider s).1.trace
      = [.storeGet req] ∧
    (Reconcile r req (.otherError contextCanceledMsg) provider s).2 = s := by
  exact ⟨rfl, rfl, rfl, rfl⟩

/-- C9: the only store operation a reconciliation ever performs is the
single read of the pod; in particular the trace contains no store
mutation, on any input. -/
theorem C9_store_frame {σ : Type} (r : PodCriteria) (req : String × String)
    (fetch : GetResult) (provider : Pod → σ → ProviderResult × σ) (s : σ) :
    (Reconcile r req fetch provider s).1.trace.filter (fun a => a.isStoreOp)
      = [.storeGet req] ∧
    (Reconcile r req fetch provider s).1.trace.countP
      (fun a => a.isStoreWrite) = 0 := by
  cases fetch with
  | notFound => exact ⟨rfl, rfl⟩
  | otherError m => exact ⟨rfl, rfl⟩
  | found p =>
      rw [Reconcile_found]
      cases hp : isEligible p r.resourceType with
      | false => exact ⟨rfl, rfl⟩
      | true =>
          rcases hpr : provider p s with ⟨pr, s'⟩
          cases pr <;> exact ⟨rfl, rfl⟩

/-- C10: on every execution path reconcile returns the zero-valued
`ctrl.Result` — requeue false, no requeue-after delay — so redelivery is
signalled exclusively through a non-nil returned error. -/
theorem C10_zero_result {σ : Type} (r : PodCriteria) (req : String × String)
    (fetch : GetResult) (provider : Pod → σ → ProviderResult × σ) (s : σ) :
    (Reconcile r req fetch provider s).1.res = CtrlResult.zero := by
  cases fetch with
  | notFound => rfl
  | otherError m => rfl
  | found p =>
      rw [Reconcile_found]
      cases hp : isEligible p r.resourceType with
      | false => rfl
      | true =>
          rcases hpr : provider p s with ⟨pr, s'⟩
          cases pr <;> rfl

end TPUProvisioner
